import Mathlib

/-!
# Verification of mihoro's binary-resolution and update-orchestration core

A shallow embedding of `src/resolve_mihomo_bin.rs` and the `Update`
branch of `cli` in `src/main.rs`, with theorems checking the
specification's statements against it.

Rust strings are modelled as Lean `String` (a list of Unicode
characters); where the source manipulates UTF-8 bytes (`str::len`,
byte slicing `&s[..k]`), the byte structure is recovered through
`Char.utf8Size`.  A Rust panic is modelled as `Option.none` in the
result.  `anyhow` error values are modelled by the inductive
`MihoroError`, one constructor per `bail!`/context site, and
`MihoroError.message` renders the formatted text.
-/

/-- The `MihomoChannel` enumeration from `config.rs` (fields as consumed by
`resolve_mihomo_bin.rs`): the release channel enumeration. -/
inductive MihomoChannel where
  | Stable : MihomoChannel
  | Alpha : MihomoChannel
deriving DecidableEq, Repr

/-- The fields of `Config` consumed by `resolve_binary_url`
(`remote_mihomo_binary_url`, `mihomo_arch`, `mihomo_channel`,
`mihoro_user_agent`). -/
structure Config where
  remote_mihomo_binary_url : Option String
  mihomo_arch : Option String
  mihomo_channel : MihomoChannel
  mihoro_user_agent : String

/-- The errors raised by the resolution subsystem, one constructor per
`bail!` / error-context site in `resolve_mihomo_bin.rs`. -/
inductive MihoroError where
  /-- Transport failure of `send()`, wrapped with the fetch context, or a
  non-success HTTP status from `error_for_status_ref`. -/
  | network (msg : String)
  /-- failure reading the response body (`text()`). -/
  | readBody
  /-- The `bail!("received empty version from GitHub")` case. -/
  | emptyVersion
  /-- The `bail!` in `detect_arch` for an unmapped host architecture. -/
  | unsupportedArch (hostArch : String)
  /-- The `bail!` in `validate_arch` when prefix suggestions exist. -/
  | invalidArchSuggest (arch : String) (suggestions : List String)
  /-- The `bail!` in `validate_arch` when no suggestion matches. -/
  | invalidArchAll (arch : String)
deriving DecidableEq, Repr

/-- The constant `SUPPORTED_ARCHS` from `resolve_mihomo_bin.rs`, verbatim. -/
def SUPPORTED_ARCHS : List String :=
  [ "386",
    "386-go120",
    "386-go123",
    "386-softfloat",
    "amd64",
    "amd64-compatible",
    "amd64-v1",
    "amd64-v1-go120",
    "amd64-v1-go123",
    "amd64-v2",
    "amd64-v2-go120",
    "amd64-v2-go123",
    "amd64-v3",
    "amd64-v3-go120",
    "amd64-v3-go123",
    "arm64",
    "armv5",
    "armv6",
    "armv7",
    "loong64-abi1",
    "loong64-abi2",
    "mips-hardfloat",
    "mips-softfloat",
    "mips64",
    "mips64le",
    "mipsle-hardfloat",
    "mipsle-softfloat",
    "ppc64le",
    "riscv64",
    "s390x" ]

/-- Rust `slice::join` with separator ", ". -/
def joinComma (l : List String) : String :=
  String.intercalate ", " l

/-- The rendered text of each error, following the format strings in
the source (interpolated arguments in place, quotes dropped). -/
def MihoroError.message : MihoroError → String
  | .network msg => msg
  | .readBody => "failed to read version response"
  | .emptyVersion => "received empty version from GitHub"
  | .unsupportedArch hostArch =>
      "unsupported architecture: " ++ hostArch ++ " (use --arch to specify manually)"
  | .invalidArchSuggest arch suggestions =>
      "unsupported architecture: " ++ arch ++ "\nDid you mean: " ++ joinComma suggestions
  | .invalidArchAll arch =>
      "unsupported architecture: " ++ arch ++ "\nSupported: " ++ joinComma SUPPORTED_ARCHS

/-- Rust `str::len`: the length of the string in UTF-8 bytes. -/
def rustLen (s : String) : Nat :=
  (s.data.map Char.utf8Size).sum

/-- The characters spanned by the first `k` UTF-8 bytes of a character
list: `some` prefix when byte position `k` is a character boundary,
`none` (the model of the Rust slicing panic in `&s[..k]`) when `k`
falls inside the encoding of a character or past the end. -/
def takeBytes : List Char → Nat → Option (List Char)
  | _, 0 => some []
  | [], _ + 1 => none
  | c :: cs, k + 1 =>
      if c.utf8Size ≤ k + 1 then
        match takeBytes cs (k + 1 - c.utf8Size) with
        | some l => some (c :: l)
        | none => none
      else
        none

/-- Rust `&s[..k]` (byte slicing): `none` models the panic on a
non-boundary index. -/
def byteSlice (s : String) (k : Nat) : Option String :=
  (takeBytes s.data k).map String.mk

/-- Rust `str::starts_with(pre)`: for valid UTF-8 strings the byte
prefix test coincides with the character prefix test. -/
def strStartsWith (s pre : String) : Bool :=
  pre.data.isPrefixOf s.data

/-- Embedding of `validate_arch` from `resolve_mihomo_bin.rs`: `none` models the
panic of `&arch[..arch.len().min(3)]` on a non-character-boundary
index; `some (.ok _)` / `some (.error _)` are the function's
`Ok` / `Err` returns. -/
def validate_arch (arch : String) : Option (Except MihoroError String) :=
  if arch ∈ SUPPORTED_ARCHS then
    some (Except.ok arch)
  else
    match byteSlice arch (min (rustLen arch) 3) with
    | none => none
    | some pre =>
        let suggestions := SUPPORTED_ARCHS.filter (fun a => strStartsWith a pre)
        if suggestions.isEmpty then
          some (Except.error (MihoroError.invalidArchAll arch))
        else
          some (Except.error (MihoroError.invalidArchSuggest arch suggestions))

/-- The keys of the `match` table in `detect_arch` (the host
architecture identifiers with a mapped default token). -/
def DETECT_ARCH_KEYS : List String :=
  [ "x86_64", "aarch64", "arm", "x86", "mips64", "mips64el", "mips",
    "mipsel", "powerpc64le", "ppc64le", "riscv64", "s390x", "loongarch64" ]

/-- Embedding of `detect_arch` from `resolve_mihomo_bin.rs`, with the ambient
`std::env::consts::ARCH` made an explicit argument `hostArch`. -/
def detect_arch (hostArch : String) : Except MihoroError String :=
  if hostArch = "x86_64" then Except.ok "amd64-compatible"
  else if hostArch = "aarch64" then Except.ok "arm64"
  else if hostArch = "arm" then Except.ok "armv7"
  else if hostArch = "x86" then Except.ok "386"
  else if hostArch = "mips64" then Except.ok "mips64"
  else if hostArch = "mips64el" then Except.ok "mips64le"
  else if hostArch = "mips" then Except.ok "mips-softfloat"
  else if hostArch = "mipsel" then Except.ok "mipsle-softfloat"
  else if hostArch = "powerpc64le" ∨ hostArch = "ppc64le" then Except.ok "ppc64le"
  else if hostArch = "riscv64" then Except.ok "riscv64"
  else if hostArch = "s390x" then Except.ok "s390x"
  else if hostArch = "loongarch64" then Except.ok "loong64-abi2"
  else Except.error (MihoroError.unsupportedArch hostArch)

/-- The constant `STABLE_VERSION_URL` from `resolve_mihomo_bin.rs`. -/
def STABLE_VERSION_URL : String :=
  "https://github.com/MetaCubeX/mihomo/releases/latest/download/version.txt"

/-- The constant `ALPHA_VERSION_URL` from `resolve_mihomo_bin.rs`. -/
def ALPHA_VERSION_URL : String :=
  "https://github.com/MetaCubeX/mihomo/releases/download/Prerelease-Alpha/version.txt"

/-- The version endpoint chosen by `fetch_latest_version` for each
channel (the `match channel` at its head). -/
def version_url (channel : MihomoChannel) : String :=
  match channel with
  | MihomoChannel.Stable => STABLE_VERSION_URL
  | MihomoChannel.Alpha => ALPHA_VERSION_URL

/-- What the network can answer for one request: a transport failure
from `send()`, or a response carrying the success bit consulted by
`error_for_status_ref` and the outcome of reading the body (`text()`). -/
inductive HttpOutcome where
  | sendError (msg : String)
  | response (statusSuccess : Bool) (text : Except String String)

/-- Rust `char::is_whitespace` as used through `str::trim`: the
Unicode White_Space property, i.e. U+0009–U+000D (tab, line feed,
vertical tab, form feed, carriage return), space, U+0085 (next line),
U+00A0 (no-break space), U+1680 (ogham space mark), U+2000–U+200A (the
typographic spaces), U+2028 (line separator), U+2029 (paragraph
separator), U+202F (narrow no-break space), U+205F (medium
mathematical space) and U+3000 (ideographic space). -/
def isWs (c : Char) : Bool :=
  (0x09 ≤ c.toNat && c.toNat ≤ 0x0D) || c.toNat == 0x20 || c.toNat == 0x85 ||
    c.toNat == 0xA0 || c.toNat == 0x1680 ||
    (0x2000 ≤ c.toNat && c.toNat ≤ 0x200A) || c.toNat == 0x2028 ||
    c.toNat == 0x2029 || c.toNat == 0x202F || c.toNat == 0x205F || c.toNat == 0x3000

/-- Rust `str::trim` on the character list: drop whitespace from the front,
then from the back. -/
def trimChars (l : List Char) : List Char :=
  ((l.dropWhile isWs).reverse.dropWhile isWs).reverse

/-- Rust `str::trim`. -/
def rustTrim (s : String) : String :=
  String.mk (trimChars s.data)

/-- Embedding of `fetch_latest_version` from `resolve_mihomo_bin.rs`, with the
network made an explicit oracle `net` from the requested URL to its
outcome. -/
def fetch_latest_version (net : String → HttpOutcome) (channel : MihomoChannel)
    (user_agent : String) : Except MihoroError String :=
  let url := version_url channel
  match net url with
  | HttpOutcome.sendError msg =>
      Except.error (MihoroError.network ("failed to fetch version from " ++ url ++ ": " ++ msg))
  | HttpOutcome.response statusSuccess text =>
      if !statusSuccess then
        Except.error (MihoroError.network ("non-success status from " ++ url))
      else
        match text with
        | Except.error _ => Except.error MihoroError.readBody
        | Except.ok body =>
            let version := rustTrim body
            if version.isEmpty then
              Except.error MihoroError.emptyVersion
            else
              Except.ok version

/-- Embedding of `build_download_url` from `resolve_mihomo_bin.rs`. -/
def build_download_url (version arch : String) (channel : MihomoChannel) : String :=
  let base := match channel with
    | MihomoChannel.Stable => "https://github.com/MetaCubeX/mihomo/releases/latest/download"
    | MihomoChannel.Alpha => "https://github.com/MetaCubeX/mihomo/releases/download/Prerelease-Alpha"
  base ++ "/mihomo-linux-" ++ arch ++ "-" ++ version ++ ".gz"

/-- The architecture-determination chain of `resolve_binary_url`:
CLI override (validated) over config override (validated) over
auto-detection.  `none` propagates the `validate_arch` panic. -/
def resolve_arch_token (hostArch : String) (config : Config)
    (arch_override : Option String) : Option (Except MihoroError String) :=
  match arch_override with
  | some arch => validate_arch arch
  | none =>
      match config.mihomo_arch with
      | some arch => validate_arch arch
      | none => some (detect_arch hostArch)

/-- The tail of `resolve_binary_url` after the explicit-URL shortcut
has not fired: determine the architecture, fetch the version, build
the URL; the first error (or panic) aborts. -/
def resolve_binary_url_noexplicit (net : String → HttpOutcome) (hostArch : String)
    (config : Config) (arch_override : Option String) :
    Option (Except MihoroError String) :=
  match resolve_arch_token hostArch config arch_override with
  | none => none
  | some (Except.error e) => some (Except.error e)
  | some (Except.ok arch) =>
      match fetch_latest_version net config.mihomo_channel config.mihoro_user_agent with
      | Except.error e => some (Except.error e)
      | Except.ok version =>
          some (Except.ok (build_download_url version arch config.mihomo_channel))

/-- Embedding of `resolve_binary_url` from `resolve_mihomo_bin.rs`: the configured
explicit URL, when set and non-empty, short-circuits everything else. -/
def resolve_binary_url (net : String → HttpOutcome) (hostArch : String)
    (config : Config) (arch_override : Option String) :
    Option (Except MihoroError String) :=
  match config.remote_mihomo_binary_url with
  | some url =>
      if !url.isEmpty then
        some (Except.ok url)
      else
        resolve_binary_url_noexplicit net hostArch config arch_override
  | none => resolve_binary_url_noexplicit net hostArch config arch_override

/-- The flags of `Commands::Update` in `cmd.rs`. -/
structure UpdateFlags where
  config : Bool
  core : Bool
  geodata : Bool
  all : Bool
  arch : Option String

/-- The collaborators the `Update` branch of `cli` in `main.rs` calls
(`Mihoro::update_config`, `Mihoro::update_geodata`,
`Mihoro::update_core`, `Systemctl::restart(...).execute()`), as
outcome oracles.  `update_config` and `update_core` receive the same
restart flag the orchestrator passes. -/
structure UpdateEnv where
  update_config : Bool → Except String Unit
  update_geodata : Except String Unit
  update_core : Option String → Bool → Except String Unit
  restart_service : Except String Unit

/-- The externally visible calls the `Update` branch makes, in order;
`reportError` is the `eprintln!` of a caught stage failure. -/
inductive UpdateEvent where
  | callUpdateConfig (restart : Bool)
  | callUpdateGeodata
  | callUpdateCore (arch : Option String) (restart : Bool)
  | reportError (msg : String)
  | callRestart
deriving DecidableEq, Repr

/-- The `if let Err(e) = ... { eprintln!(...) }` wrapper of each stage
in the `--all` path: the error is reported, never propagated. -/
def reportIfError : Except String Unit → List UpdateEvent
  | Except.error e => [UpdateEvent.reportError e]
  | Except.ok _ => []

/-- The `Commands::Update` branch of `cli` in `main.rs`: the emitted
call/report trace and the command's result. -/
def cli_update (env : UpdateEnv) (f : UpdateFlags) :
    List UpdateEvent × Except String Unit :=
  if f.all then
    ([UpdateEvent.callUpdateConfig false] ++ reportIfError (env.update_config false)
      ++ [UpdateEvent.callUpdateGeodata] ++ reportIfError env.update_geodata
      ++ [UpdateEvent.callUpdateCore f.arch false]
      ++ reportIfError (env.update_core f.arch false)
      ++ [UpdateEvent.callRestart],
     env.restart_service)
  else if f.core then
    ([UpdateEvent.callUpdateCore f.arch true], env.update_core f.arch true)
  else if f.geodata then
    ([UpdateEvent.callUpdateGeodata], env.update_geodata)
  else if f.config || (!f.core && !f.geodata) then
    ([UpdateEvent.callUpdateConfig true], env.update_config true)
  else
    ([], Except.ok ())

/-- Selects the collaborator calls of a trace (everything but the
error reports). -/
def isCall : UpdateEvent → Bool
  | UpdateEvent.reportError _ => false
  | _ => true

/-- Selects the service-restart requests of a trace. -/
def isRestartCall : UpdateEvent → Bool
  | UpdateEvent.callRestart => true
  | _ => false

/-- Selects the geodata-update calls of a trace. -/
def isGeodataCall : UpdateEvent → Bool
  | UpdateEvent.callUpdateGeodata => true
  | _ => false

/-- Selects the config-update calls of a trace. -/
def isConfigCall : UpdateEvent → Bool
  | UpdateEvent.callUpdateConfig _ => true
  | _ => false

/-! ## Helper lemmas -/

theorem utf8Size_eq_one_of_ascii {c : Char} (h : c.toNat < 128) : c.utf8Size = 1 := by
  have h2 : c.val ≤ UInt32.ofNatCore 0x7F (by decide) := by
    change c.val.toBitVec ≤ _
    rw [BitVec.le_def]
    exact Nat.le_of_lt_succ h
  simp only [Char.utf8Size]
  rw [if_pos h2]

theorem takeBytes_isSome_of_one :
    ∀ (l : List Char) (k : Nat), (∀ c ∈ l, c.utf8Size = 1) → k ≤ l.length →
      (takeBytes l k).isSome := by
  intro l
  induction l with
  | nil =>
      intro k _ hk
      have : k = 0 := Nat.le_zero.mp hk
      subst this
      simp [takeBytes]
  | cons c cs ih =>
      intro k hall hk
      cases k with
      | zero => simp [takeBytes]
      | succ k =>
          have hc : c.utf8Size = 1 := hall c (by simp)
          have hrec := ih k (fun d hd => hall d (by simp [hd])) (Nat.le_of_succ_le_succ hk)
          rcases htb : takeBytes cs k with _ | l2
          · rw [htb] at hrec
            simp at hrec
          · simp [takeBytes, hc, htb]

theorem sum_utf8Size_eq_length :
    ∀ l : List Char, (∀ c ∈ l, c.utf8Size = 1) → (l.map Char.utf8Size).sum = l.length := by
  intro l
  induction l with
  | nil => simp
  | cons c cs ih =>
      intro h
      have hc : c.utf8Size = 1 := h c (by simp)
      simp [hc, ih (fun d hd => h d (by simp [hd]))]
      omega

theorem rustLen_eq_length_of_ascii {s : String} (h : ∀ c ∈ s.data, c.toNat < 128) :
    rustLen s = s.data.length :=
  sum_utf8Size_eq_length s.data (fun c hc => utf8Size_eq_one_of_ascii (h c hc))

theorem trimChars_eq_rdropWhile (l : List Char) :
    trimChars l = List.rdropWhile isWs (List.dropWhile isWs l) := rfl

theorem dropWhile_trimChars (l : List Char) :
    List.dropWhile isWs (trimChars l) = trimChars l := by
  rw [trimChars_eq_rdropWhile, List.dropWhile_eq_self_iff]
  intro hl
  have hpre : List.rdropWhile isWs (List.dropWhile isWs l) <+: List.dropWhile isWs l :=
    List.rdropWhile_prefix isWs (List.dropWhile isWs l)
  have hld : 0 < (List.dropWhile isWs l).length := Nat.lt_of_lt_of_le hl hpre.length_le
  have h0 := List.IsPrefix.getElem hpre (Nat.lt_of_lt_of_le (Nat.zero_lt_of_lt hl) (le_refl _))
  rw [List.get_eq_getElem]
  rw [List.IsPrefix.getElem hpre hl]
  have := List.dropWhile_get_zero_not isWs l hld
  rw [List.get_eq_getElem] at this
  exact this

theorem trimChars_idempotent (l : List Char) : trimChars (trimChars l) = trimChars l := by
  rw [trimChars_eq_rdropWhile (trimChars l), dropWhile_trimChars, trimChars_eq_rdropWhile]
  exact List.rdropWhile_idempotent isWs (List.dropWhile isWs l)

theorem rustTrim_idempotent (s : String) : rustTrim (rustTrim s) = rustTrim s :=
  congrArg String.mk (trimChars_idempotent s.data)

theorem validate_arch_mem {arch : String} (h : arch ∈ SUPPORTED_ARCHS) :
    validate_arch arch = some (Except.ok arch) := by
  simp [validate_arch, h]

theorem validate_arch_not_mem {arch : String} {pl : List Char}
    (h1 : arch ∉ SUPPORTED_ARCHS)
    (h2 : takeBytes arch.data (min (rustLen arch) 3) = some pl) :
    validate_arch arch =
      (if (SUPPORTED_ARCHS.filter (fun a => strStartsWith a (String.mk pl))).isEmpty then
        some (Except.error (MihoroError.invalidArchAll arch))
      else
        some (Except.error (MihoroError.invalidArchSuggest arch
          (SUPPORTED_ARCHS.filter (fun a => strStartsWith a (String.mk pl)))))) := by
  simp [validate_arch, byteSlice, h1, h2]

theorem validate_arch_panic {arch : String}
    (h1 : arch ∉ SUPPORTED_ARCHS)
    (h2 : takeBytes arch.data (min (rustLen arch) 3) = none) :
    validate_arch arch = none := by
  simp [validate_arch, byteSlice, h1, h2]

theorem validate_arch_error_of_not_mem {arch : String}
    (h1 : arch ∉ SUPPORTED_ARCHS)
    (h2 : (takeBytes arch.data (min (rustLen arch) 3)).isSome) :
    ∃ e, validate_arch arch = some (Except.error e) := by
  rcases Option.isSome_iff_exists.mp h2 with ⟨pl, hpl⟩
  rw [validate_arch_not_mem h1 hpl]
  by_cases he : (SUPPORTED_ARCHS.filter (fun a => strStartsWith a (String.mk pl))).isEmpty
  · rw [if_pos he]
    exact ⟨_, rfl⟩
  · rw [if_neg he]
    exact ⟨_, rfl⟩

theorem validate_arch_error_of_ascii {arch : String}
    (hascii : ∀ c ∈ arch.data, c.toNat < 128)
    (h1 : arch ∉ SUPPORTED_ARCHS) :
    ∃ e, validate_arch arch = some (Except.error e) := by
  apply validate_arch_error_of_not_mem h1
  apply takeBytes_isSome_of_one arch.data _
    (fun c hc => utf8Size_eq_one_of_ascii (hascii c hc))
  rw [← rustLen_eq_length_of_ascii hascii]
  exact Nat.min_le_left _ _

/-! ## Claim theorems -/

/-- C5: `build_download_url` is a pure, total function returning
`base ++ "/mihomo-linux-" ++ arch ++ "-" ++ version ++ ".gz"`, with
the stable "latest release" base for `Stable` and the fixed
pre-release tag base for `Alpha`; `("v1.19.0", "amd64", Stable)` and
`("alpha-abc123", "arm64", Alpha)` produce the expected URLs, and a
hyphenated token such as `"amd64-compatible"` appears verbatim and
unsplit in the result. -/
theorem build_download_url_spec :
    (∀ version arch, build_download_url version arch MihomoChannel.Stable =
      "https://github.com/MetaCubeX/mihomo/releases/latest/download" ++
        "/mihomo-linux-" ++ arch ++ "-" ++ version ++ ".gz")
    ∧ (∀ version arch, build_download_url version arch MihomoChannel.Alpha =
      "https://github.com/MetaCubeX/mihomo/releases/download/Prerelease-Alpha" ++
        "/mihomo-linux-" ++ arch ++ "-" ++ version ++ ".gz")
    ∧ build_download_url "v1.19.0" "amd64" MihomoChannel.Stable =
        "https://github.com/MetaCubeX/mihomo/releases/latest/download/mihomo-linux-amd64-v1.19.0.gz"
    ∧ build_download_url "alpha-abc123" "arm64" MihomoChannel.Alpha =
        "https://github.com/MetaCubeX/mihomo/releases/download/Prerelease-Alpha/mihomo-linux-arm64-alpha-abc123.gz"
    ∧ (∃ leading trailing,
        build_download_url "v1.19.0" "amd64-compatible" MihomoChannel.Stable =
          leading ++ "amd64-compatible" ++ trailing) := by
  refine ⟨fun version arch => rfl, fun version arch => rfl, rfl, rfl,
    "https://github.com/MetaCubeX/mihomo/releases/latest/download/mihomo-linux-",
    "-v1.19.0.gz", ?_⟩
  rfl

/-- C7: every host identifier in `detect_arch`'s mapping table is sent
to a member of `SUPPORTED_ARCHS` (`x86_64` to `amd64-compatible`,
`aarch64` to `arm64`, 32-bit `arm` to `armv7`), and every identifier
outside the table fails with `UnsupportedArch` whose message directs
the caller to the explicit `--arch` override. -/
theorem detect_arch_spec :
    (∀ hostArch ∈ DETECT_ARCH_KEYS,
      ∃ t, detect_arch hostArch = Except.ok t ∧ t ∈ SUPPORTED_ARCHS)
    ∧ detect_arch "x86_64" = Except.ok "amd64-compatible"
    ∧ detect_arch "aarch64" = Except.ok "arm64"
    ∧ detect_arch "arm" = Except.ok "armv7"
    ∧ (∀ hostArch, hostArch ∉ DETECT_ARCH_KEYS →
        detect_arch hostArch = Except.error (MihoroError.unsupportedArch hostArch))
    ∧ (∀ hostArch, (MihoroError.unsupportedArch hostArch).message =
        "unsupported architecture: " ++ hostArch ++ " (use --arch to specify manually)") := by
  refine ⟨?_, rfl, rfl, rfl, ?_, fun hostArch => rfl⟩
  · intro hostArch hm
    simp only [DETECT_ARCH_KEYS, List.mem_cons, List.not_mem_nil, or_false] at hm
    rcases hm with rfl | rfl | rfl | rfl | rfl | rfl | rfl | rfl | rfl | rfl | rfl | rfl | rfl <;>
      exact ⟨_, rfl, by decide⟩
  · intro hostArch hm
    simp only [DETECT_ARCH_KEYS, List.mem_cons, List.not_mem_nil, or_false, not_or] at hm
    obtain ⟨h1, h2, h3, h4, h5, h6, h7, h8, h9, h10, h11, h12, h13⟩ := hm
    simp [detect_arch, h1, h2, h3, h4, h5, h6, h7, h8, h9, h10, h11, h12, h13]

/-- C7 witness: the theorem applied at a mapped identifier and at an
unmapped one. -/
theorem detect_arch_spec_witness :
    (∃ t, detect_arch "riscv64" = Except.ok t ∧ t ∈ SUPPORTED_ARCHS)
    ∧ detect_arch "sparc64" = Except.error (MihoroError.unsupportedArch "sparc64") :=
  ⟨detect_arch_spec.1 "riscv64" (by decide),
   detect_arch_spec.2.2.2.2.1 "sparc64" (by decide)⟩

/-- C3 counterexample: the claim "validate_arch returns an error for
any string not in the set" fails at `"ab€"`: the input is not in the
set, yet the function panics (models as `none`) instead of returning
an error value. -/
theorem validate_arch_total_counterexample :
    "ab€" ∉ SUPPORTED_ARCHS ∧ validate_arch "ab€" = none ∧
      ∀ r : Except MihoroError String, validate_arch "ab€" ≠ some r := by
  refine ⟨by decide, rfl, ?_⟩
  intro r h
  rw [show validate_arch "ab€" = none from rfl] at h
  exact Option.noConfusion h

/-- C3 (amended): `validate_arch` succeeds iff its input is exactly a
member of the 30-entry enumerated set, returning that token; for any
non-member whose `min(3, byte-length)` index falls on a UTF-8
character boundary — in particular every ASCII string, including
`"x86_64"` and `"aarch64"` — it returns an error. -/
theorem validate_arch_spec :
    SUPPORTED_ARCHS.length = 30
    ∧ (∀ arch, arch ∈ SUPPORTED_ARCHS → validate_arch arch = some (Except.ok arch))
    ∧ (∀ arch r, validate_arch arch = some (Except.ok r) →
        arch ∈ SUPPORTED_ARCHS ∧ r = arch)
    ∧ (∀ arch, arch ∉ SUPPORTED_ARCHS →
        (takeBytes arch.data (min (rustLen arch) 3)).isSome →
        ∃ e, validate_arch arch = some (Except.error e))
    ∧ (∀ arch, (∀ c ∈ arch.data, c.toNat < 128) → arch ∉ SUPPORTED_ARCHS →
        ∃ e, validate_arch arch = some (Except.error e))
    ∧ (∃ e, validate_arch "x86_64" = some (Except.error e))
    ∧ (∃ e, validate_arch "aarch64" = some (Except.error e)) := by
  refine ⟨by decide, fun arch h => validate_arch_mem h, ?_,
    fun arch h1 h2 => validate_arch_error_of_not_mem h1 h2,
    fun arch ha h1 => validate_arch_error_of_ascii ha h1,
    ⟨MihoroError.invalidArchAll "x86_64", rfl⟩,
    ⟨MihoroError.invalidArchAll "aarch64", rfl⟩⟩
  intro arch r h
  by_cases hm : arch ∈ SUPPORTED_ARCHS
  · rw [validate_arch_mem hm] at h
    have := Option.some.inj h
    exact ⟨hm, (Except.ok.inj this).symm⟩
  · rcases htb : takeBytes arch.data (min (rustLen arch) 3) with _ | pl
    · rw [validate_arch_panic hm htb] at h
      exact Option.noConfusion h
    · rw [validate_arch_not_mem hm htb] at h
      by_cases he : (SUPPORTED_ARCHS.filter
          (fun a => strStartsWith a (String.mk pl))).isEmpty
      · rw [if_pos he] at h
        exact Except.noConfusion (Option.some.inj h)
      · rw [if_neg he] at h
        exact Except.noConfusion (Option.some.inj h)

/-- C3 witness: the amended theorem applied at `"amd64"` (member,
accepted) and `"x86_64"` (ASCII non-member, rejected with an error). -/
theorem validate_arch_spec_witness :
    validate_arch "amd64" = some (Except.ok "amd64")
    ∧ ∃ e, validate_arch "x86_64" = some (Except.error e) :=
  ⟨validate_arch_spec.2.1 "amd64" (by decide),
   validate_arch_spec.2.2.2.2.1 "x86_64" (by decide) (by decide)⟩

/-- C9: `validate_arch` is not total: on `"ab€"` — not in the set, and
byte index `min(3, byte-length) = 3` is not a character boundary — the
byte slice panics (`none`), instead of an `InvalidArch` error; it
returns an error value exactly for the non-members whose index falls
on a boundary, which includes every ASCII input. -/
theorem validate_arch_panic_spec :
    ("ab€" ∉ SUPPORTED_ARCHS
      ∧ takeBytes ("ab€" : String).data (min (rustLen "ab€") 3) = none
      ∧ validate_arch "ab€" = none)
    ∧ (∀ arch, arch ∉ SUPPORTED_ARCHS →
        takeBytes arch.data (min (rustLen arch) 3) = none →
        validate_arch arch = none)
    ∧ (∀ arch, arch ∉ SUPPORTED_ARCHS →
        (takeBytes arch.data (min (rustLen arch) 3)).isSome →
        ∃ e, validate_arch arch = some (Except.error e))
    ∧ (∀ arch, (∀ c ∈ arch.data, c.toNat < 128) →
        (takeBytes arch.data (min (rustLen arch) 3)).isSome) := by
  refine ⟨⟨by decide, rfl, rfl⟩,
    fun arch h1 h2 => validate_arch_panic h1 h2,
    fun arch h1 h2 => validate_arch_error_of_not_mem h1 h2, ?_⟩
  intro arch hascii
  apply takeBytes_isSome_of_one arch.data _
    (fun c hc => utf8Size_eq_one_of_ascii (hascii c hc))
  rw [← rustLen_eq_length_of_ascii hascii]
  exact Nat.min_le_left _ _

/-- C9 witness: the theorem applied at the panicking input `"xy€"` and
at the ASCII non-member `"invalid"`. -/
theorem validate_arch_panic_spec_witness :
    validate_arch "xy€" = none
    ∧ ∃ e, validate_arch "invalid" = some (Except.error e) :=
  ⟨validate_arch_panic_spec.2.1 "xy€" (by decide) rfl,
   validate_arch_panic_spec.2.2.1 "invalid" (by decide)
     (validate_arch_panic_spec.2.2.2 "invalid" (by decide))⟩

/-- C4: on failure, the suggestion list is the enumerated set filtered
by agreement with the input's prefix of `min(3, len)` bytes; a
non-empty list yields the "Did you mean" error carrying exactly those
candidates, an empty one yields the error carrying the full set; and
`validate_arch "amd"` fails with a "Did you mean" hint listing
`"amd64"`. -/
theorem validate_arch_suggestions_spec :
    (∀ arch pl, arch ∉ SUPPORTED_ARCHS →
      takeBytes arch.data (min (rustLen arch) 3) = some pl →
      ((SUPPORTED_ARCHS.filter (fun a => strStartsWith a (String.mk pl))).isEmpty = false →
        validate_arch arch = some (Except.error (MihoroError.invalidArchSuggest arch
          (SUPPORTED_ARCHS.filter (fun a => strStartsWith a (String.mk pl))))))
      ∧ ((SUPPORTED_ARCHS.filter (fun a => strStartsWith a (String.mk pl))).isEmpty = true →
        validate_arch arch = some (Except.error (MihoroError.invalidArchAll arch))))
    ∧ (∀ arch suggestions, (MihoroError.invalidArchSuggest arch suggestions).message =
        "unsupported architecture: " ++ arch ++ "\nDid you mean: " ++ joinComma suggestions)
    ∧ (∀ arch, (MihoroError.invalidArchAll arch).message =
        "unsupported architecture: " ++ arch ++ "\nSupported: " ++ joinComma SUPPORTED_ARCHS)
    ∧ (∃ suggestions, validate_arch "amd" =
        some (Except.error (MihoroError.invalidArchSuggest "amd" suggestions))
        ∧ "amd64" ∈ suggestions
        ∧ (∃ pre post, (MihoroError.invalidArchSuggest "amd" suggestions).message =
            pre ++ ("Did you mean: " ++ post))) := by
  refine ⟨?_, fun arch suggestions => rfl, fun arch => rfl,
    ["amd64", "amd64-compatible", "amd64-v1", "amd64-v1-go120", "amd64-v1-go123",
     "amd64-v2", "amd64-v2-go120", "amd64-v2-go123", "amd64-v3", "amd64-v3-go120",
     "amd64-v3-go123"], rfl, by decide,
    "unsupported architecture: amd\n",
    "amd64, amd64-compatible, amd64-v1, amd64-v1-go120, amd64-v1-go123, amd64-v2, amd64-v2-go120, amd64-v2-go123, amd64-v3, amd64-v3-go120, amd64-v3-go123",
    rfl⟩
  intro arch pl h1 h2
  constructor
  · intro hne
    rw [validate_arch_not_mem h1 h2, hne]
    simp
  · intro he
    rw [validate_arch_not_mem h1 h2, he]
    simp

/-- C4 witness: the filtering branch applied at the concrete input
`"amd"`, whose 3-byte prefix is `"amd"` itself. -/
theorem validate_arch_suggestions_spec_witness :
    validate_arch "amd" = some (Except.error (MihoroError.invalidArchSuggest "amd"
      (SUPPORTED_ARCHS.filter (fun a => strStartsWith a (String.mk ['a', 'm', 'd']))))) :=
  (validate_arch_suggestions_spec.1 "amd" ['a', 'm', 'd'] (by decide) rfl).1 (by decide)

/-- C6: `fetch_latest_version` fails with a `Network` error on any
non-success response status, fails with `EmptyVersion` when the body
trims to the empty string (no default is substituted), and every
successful result is a non-empty, whitespace-trimmed string. -/
theorem fetch_latest_version_spec :
    ∀ net channel user_agent,
      (∀ text, net (version_url channel) = HttpOutcome.response false text →
        ∃ msg, fetch_latest_version net channel user_agent =
          Except.error (MihoroError.network msg))
      ∧ (∀ body, net (version_url channel) = HttpOutcome.response true (Except.ok body) →
          rustTrim body = "" →
          fetch_latest_version net channel user_agent = Except.error MihoroError.emptyVersion)
      ∧ (∀ version, fetch_latest_version net channel user_agent = Except.ok version →
          version ≠ "" ∧ rustTrim version = version) := by
  intro net channel user_agent
  refine ⟨?_, ?_, ?_⟩
  · intro text h
    refine ⟨"non-success status from " ++ version_url channel, ?_⟩
    simp [fetch_latest_version, h]
  · intro body h htrim
    simp [fetch_latest_version, h, htrim]
    rfl
  · intro version h
    rcases hnet : net (version_url channel) with msg | ⟨ss, text⟩
    · simp [fetch_latest_version, hnet] at h
    · cases ss
      · simp [fetch_latest_version, hnet] at h
      · rcases text with terr | body
        · simp [fetch_latest_version, hnet] at h
        · rcases hemp : (rustTrim body).isEmpty with _ | _
          · simp [fetch_latest_version, hnet, hemp] at h
            refine ⟨?_, ?_⟩
            · intro hv
              rw [h, hv] at hemp
              exact absurd hemp (by decide)
            · rw [← h]
              exact rustTrim_idempotent body
          · simp [fetch_latest_version, hnet, hemp] at h

/-- C6 witness: the theorem applied to networks answering an
ASCII-whitespace-only body, a body of only form feed and no-break
space (Unicode whitespace beyond the ASCII four), and a trimmable
version. -/
theorem fetch_latest_version_spec_witness :
    fetch_latest_version (fun _ => HttpOutcome.response true (Except.ok " \n "))
        MihomoChannel.Stable "mihoro" = Except.error MihoroError.emptyVersion
    ∧ fetch_latest_version (fun _ => HttpOutcome.response true (Except.ok "\x0C\u00A0"))
        MihomoChannel.Alpha "mihoro" = Except.error MihoroError.emptyVersion
    ∧ ("v1.19.0" ≠ "" ∧ rustTrim "v1.19.0" = "v1.19.0") :=
  ⟨(fetch_latest_version_spec (fun _ => HttpOutcome.response true (Except.ok " \n "))
      MihomoChannel.Stable "mihoro").2.1 " \n " rfl (by decide),
   (fetch_latest_version_spec (fun _ => HttpOutcome.response true (Except.ok "\x0C\u00A0"))
      MihomoChannel.Alpha "mihoro").2.1 "\x0C\u00A0" rfl (by decide),
   (fetch_latest_version_spec (fun _ => HttpOutcome.response true (Except.ok " v1.19.0\n"))
      MihomoChannel.Stable "mihoro").2.2 "v1.19.0" rfl⟩

/-- C1: `resolve_binary_url` obeys the override precedence chain: a
set, non-empty explicit binary URL is returned verbatim whatever the
network, host architecture or override; otherwise the architecture
token comes from the validated CLI override, else the validated config
override, else auto-detection, and the result is `build_download_url`
of the fetched version, that token and the config's channel, with any
validation or fetch error propagated unchanged. -/
theorem resolve_binary_url_spec :
    ∀ net hostArch config arch_override,
      (∀ url, config.remote_mihomo_binary_url = some url → url.isEmpty = false →
        resolve_binary_url net hostArch config arch_override = some (Except.ok url))
      ∧ (∀ arch, arch_override = some arch →
          resolve_arch_token hostArch config arch_override = validate_arch arch)
      ∧ (∀ arch, arch_override = none → config.mihomo_arch = some arch →
          resolve_arch_token hostArch config arch_override = validate_arch arch)
      ∧ (arch_override = none → config.mihomo_arch = none →
          resolve_arch_token hostArch config arch_override = some (detect_arch hostArch))
      ∧ ((config.remote_mihomo_binary_url = none ∨
            config.remote_mihomo_binary_url = some "") →
          (∀ e, resolve_arch_token hostArch config arch_override = some (Except.error e) →
            resolve_binary_url net hostArch config arch_override = some (Except.error e))
          ∧ (∀ arch e,
              resolve_arch_token hostArch config arch_override = some (Except.ok arch) →
              fetch_latest_version net config.mihomo_channel config.mihoro_user_agent =
                Except.error e →
              resolve_binary_url net hostArch config arch_override = some (Except.error e))
          ∧ (∀ arch version,
              resolve_arch_token hostArch config arch_override = some (Except.ok arch) →
              fetch_latest_version net config.mihomo_channel config.mihoro_user_agent =
                Except.ok version →
              resolve_binary_url net hostArch config arch_override =
                some (Except.ok (build_download_url version arch config.mihomo_channel)))) := by
  intro net hostArch config arch_override
  refine ⟨?_, ?_, ?_, ?_, ?_⟩
  · intro url hu hne
    simp [resolve_binary_url, hu, hne]
  · intro arch ha
    simp [resolve_arch_token, ha]
  · intro arch ha hc
    simp [resolve_arch_token, ha, hc]
  · intro ha hc
    simp [resolve_arch_token, ha, hc]
  · intro hex
    have hb : resolve_binary_url net hostArch config arch_override =
        resolve_binary_url_noexplicit net hostArch config arch_override := by
      rcases hex with h | h
      · simp [resolve_binary_url, h]
      · simp [resolve_binary_url, h]
        intro hc
        exact absurd hc (by decide)
    refine ⟨?_, ?_, ?_⟩
    · intro e ht
      rw [hb]
      simp [resolve_binary_url_noexplicit, ht]
    · intro arch e ht hf
      rw [hb]
      simp [resolve_binary_url_noexplicit, ht, hf]
    · intro arch version ht hf
      rw [hb]
      simp [resolve_binary_url_noexplicit, ht, hf]

/-- C1 witness: a configured explicit URL wins over a CLI override,
and with nothing configured the detected token and fetched version
feed `build_download_url`. -/
theorem resolve_binary_url_spec_witness :
    resolve_binary_url (fun _ => HttpOutcome.response true (Except.ok "v1.19.0\n"))
        "x86_64" ⟨some "https://example.com/mihomo.gz", some "armv5", MihomoChannel.Alpha, "ua"⟩
        (some "armv7") = some (Except.ok "https://example.com/mihomo.gz")
    ∧ resolve_binary_url (fun _ => HttpOutcome.response true (Except.ok "v1.19.0\n"))
        "x86_64" ⟨none, none, MihomoChannel.Stable, "ua"⟩ none =
        some (Except.ok (build_download_url "v1.19.0" "amd64-compatible"
          MihomoChannel.Stable)) :=
  ⟨(resolve_binary_url_spec (fun _ => HttpOutcome.response true (Except.ok "v1.19.0\n"))
      "x86_64" ⟨some "https://example.com/mihomo.gz", some "armv5", MihomoChannel.Alpha, "ua"⟩
      (some "armv7")).1 "https://example.com/mihomo.gz" rfl rfl,
   ((resolve_binary_url_spec (fun _ => HttpOutcome.response true (Except.ok "v1.19.0\n"))
      "x86_64" ⟨none, none, MihomoChannel.Stable, "ua"⟩ none).2.2.2.2
      (Or.inl rfl)).2.2 "amd64-compatible" "v1.19.0" rfl rfl⟩

/-- C2: `update --all` attempts config, then geodata, then core, in
that order, each stage's error caught and reported without stopping
the later stages; config and core are invoked with the restart flag
off; and after all three stages, exactly one service-restart request
is issued (whose outcome is the command's result). -/
theorem cli_update_all_spec :
    ∀ env f, f.all = true →
      (cli_update env f).1.filter isCall =
        [UpdateEvent.callUpdateConfig false, UpdateEvent.callUpdateGeodata,
         UpdateEvent.callUpdateCore f.arch false, UpdateEvent.callRestart]
      ∧ (cli_update env f).1.countP isRestartCall = 1
      ∧ (cli_update env f).2 = env.restart_service
      ∧ (∀ e, env.update_config false = Except.error e →
          UpdateEvent.reportError e ∈ (cli_update env f).1)
      ∧ (∀ e, env.update_geodata = Except.error e →
          UpdateEvent.reportError e ∈ (cli_update env f).1)
      ∧ (∀ e, env.update_core f.arch false = Except.error e →
          UpdateEvent.reportError e ∈ (cli_update env f).1) := by
  intro env f hall
  rcases hc : env.update_config false with ec | uc <;>
    rcases hg : env.update_geodata with eg | ug <;>
      rcases hk : env.update_core f.arch false with ek | uk <;>
        simp_all [cli_update, reportIfError, isCall, isRestartCall]

/-- C2 witness: the theorem applied to a run whose geodata stage
fails: the core stage is still called and exactly one restart request
closes the run. -/
theorem cli_update_all_spec_witness :
    (cli_update
        ⟨fun _ => Except.ok (), Except.error "geodata down", fun _ _ => Except.ok (),
          Except.ok ()⟩
        ⟨false, false, false, true, none⟩).1.filter isCall =
      [UpdateEvent.callUpdateConfig false, UpdateEvent.callUpdateGeodata,
       UpdateEvent.callUpdateCore none false, UpdateEvent.callRestart]
    ∧ (cli_update
        ⟨fun _ => Except.ok (), Except.error "geodata down", fun _ _ => Except.ok (),
          Except.ok ()⟩
        ⟨false, false, false, true, none⟩).1.countP isRestartCall = 1 :=
  ⟨(cli_update_all_spec
      ⟨fun _ => Except.ok (), Except.error "geodata down", fun _ _ => Except.ok (),
        Except.ok ()⟩
      ⟨false, false, false, true, none⟩ rfl).1,
   (cli_update_all_spec
      ⟨fun _ => Except.ok (), Except.error "geodata down", fun _ _ => Except.ok (),
        Except.ok ()⟩
      ⟨false, false, false, true, none⟩ rfl).2.1⟩

/-- C8: a single-target update (core, geodata, or config) calls that
stage alone, with its error becoming the command's result, and never
issues a restart request of its own (core and config receive the
restart flag on, delegating restart to the stage). -/
theorem cli_update_single_spec :
    ∀ env f, f.all = false →
      (f.core = true →
        cli_update env f =
          ([UpdateEvent.callUpdateCore f.arch true], env.update_core f.arch true))
      ∧ (f.core = false → f.geodata = true →
          cli_update env f = ([UpdateEvent.callUpdateGeodata], env.update_geodata))
      ∧ (f.core = false → f.geodata = false →
          cli_update env f =
            ([UpdateEvent.callUpdateConfig true], env.update_config true))
      ∧ (cli_update env f).1.countP isRestartCall = 0 := by
  intro env f hall
  rcases hc : f.core with _ | _ <;>
    rcases hg : f.geodata with _ | _ <;>
      simp_all [cli_update, isRestartCall]

/-- C8 witness: a failing core-only update returns the stage's error
and makes no restart request. -/
theorem cli_update_single_spec_witness :
    cli_update
        ⟨fun _ => Except.ok (), Except.ok (), fun _ _ => Except.error "install failed",
          Except.ok ()⟩
        ⟨false, true, false, false, some "arm64"⟩ =
      ([UpdateEvent.callUpdateCore (some "arm64") true], Except.error "install failed")
    ∧ (cli_update
        ⟨fun _ => Except.ok (), Except.ok (), fun _ _ => Except.error "install failed",
          Except.ok ()⟩
        ⟨false, true, false, false, some "arm64"⟩).1.countP isRestartCall = 0 :=
  ⟨(cli_update_single_spec
      ⟨fun _ => Except.ok (), Except.ok (), fun _ _ => Except.error "install failed",
        Except.ok ()⟩
      ⟨false, true, false, false, some "arm64"⟩ rfl).1 rfl,
   (cli_update_single_spec
      ⟨fun _ => Except.ok (), Except.ok (), fun _ _ => Except.error "install failed",
        Except.ok ()⟩
      ⟨false, true, false, false, some "arm64"⟩ rfl).2.2.2⟩

/-- C10: without `--all`, exactly one stage runs, with precedence core
over geodata over config: with `--core` set the core update runs and
the geodata flag is ignored (no geodata call, and the run equals the
one with the flag cleared); with `--core` clear and `--geodata` set
the geodata update runs and the config flag is ignored (no config
call, and the run equals the one with the flag cleared); with no
scope flags the config update runs with restart enabled, identical to
an explicit `--config`. -/
theorem cli_update_precedence_spec :
    ∀ env f, f.all = false →
      (f.core = true →
        cli_update env f =
          ([UpdateEvent.callUpdateCore f.arch true], env.update_core f.arch true)
        ∧ (cli_update env f).1.countP isGeodataCall = 0
        ∧ cli_update env f = cli_update env ⟨f.config, f.core, false, f.all, f.arch⟩)
      ∧ (f.core = false → f.geodata = true →
          cli_update env f = ([UpdateEvent.callUpdateGeodata], env.update_geodata)
          ∧ (cli_update env f).1.countP isConfigCall = 0
          ∧ cli_update env f = cli_update env ⟨false, f.core, f.geodata, f.all, f.arch⟩)
      ∧ (f.core = false → f.geodata = false → f.config = false →
          cli_update env f =
            ([UpdateEvent.callUpdateConfig true], env.update_config true)
          ∧ cli_update env f = cli_update env ⟨true, f.core, f.geodata, f.all, f.arch⟩) := by
  intro env f hall
  refine ⟨?_, ?_, ?_⟩
  · intro hc
    refine ⟨by simp [cli_update, hall, hc], by simp [cli_update, hall, hc, isGeodataCall], ?_⟩
    simp [cli_update, hall, hc]
  · intro hc hg
    refine ⟨by simp [cli_update, hall, hc, hg],
      by simp [cli_update, hall, hc, hg, isConfigCall], ?_⟩
    simp [cli_update, hall, hc, hg]
  · intro hc hg hcfg
    refine ⟨by simp [cli_update, hall, hc, hg], ?_⟩
    simp [cli_update, hall, hc, hg, hcfg]

/-- C10 witness: `--core --geodata` runs only the core stage,
`--config --geodata` runs only the geodata stage, and a flagless
update equals an explicit `--config` one. -/
theorem cli_update_precedence_spec_witness :
    cli_update
        ⟨fun _ => Except.ok (), Except.error "geodata down", fun _ _ => Except.ok (),
          Except.ok ()⟩
        ⟨false, true, true, false, none⟩ =
      ([UpdateEvent.callUpdateCore none true], Except.ok ())
    ∧ (cli_update
        ⟨fun _ => Except.ok (), Except.error "geodata down", fun _ _ => Except.ok (),
          Except.ok ()⟩
        ⟨false, true, true, false, none⟩).1.countP isGeodataCall = 0
    ∧ cli_update
        ⟨fun _ => Except.ok (), Except.error "geodata down", fun _ _ => Except.ok (),
          Except.ok ()⟩
        ⟨true, false, true, false, none⟩ =
      ([UpdateEvent.callUpdateGeodata], Except.error "geodata down")
    ∧ (cli_update
        ⟨fun _ => Except.ok (), Except.error "geodata down", fun _ _ => Except.ok (),
          Except.ok ()⟩
        ⟨true, false, true, false, none⟩).1.countP isConfigCall = 0
    ∧ cli_update
        ⟨fun _ => Except.ok (), Except.ok (), fun _ _ => Except.ok (), Except.ok ()⟩
        ⟨false, false, false, false, none⟩ =
      cli_update
        ⟨fun _ => Except.ok (), Except.ok (), fun _ _ => Except.ok (), Except.ok ()⟩
        ⟨true, false, false, false, none⟩ :=
  ⟨((cli_update_precedence_spec
      ⟨fun _ => Except.ok (), Except.error "geodata down", fun _ _ => Except.ok (),
        Except.ok ()⟩
      ⟨false, true, true, false, none⟩ rfl).1 rfl).1,
   ((cli_update_precedence_spec
      ⟨fun _ => Except.ok (), Except.error "geodata down", fun _ _ => Except.ok (),
        Except.ok ()⟩
      ⟨false, true, true, false, none⟩ rfl).1 rfl).2.1,
   ((cli_update_precedence_spec
      ⟨fun _ => Except.ok (), Except.error "geodata down", fun _ _ => Except.ok (),
        Except.ok ()⟩
      ⟨true, false, true, false, none⟩ rfl).2.1 rfl rfl).1,
   ((cli_update_precedence_spec
      ⟨fun _ => Except.ok (), Except.error "geodata down", fun _ _ => Except.ok (),
        Except.ok ()⟩
      ⟨true, false, true, false, none⟩ rfl).2.1 rfl rfl).2.1,
   ((cli_update_precedence_spec
      ⟨fun _ => Except.ok (), Except.ok (), fun _ _ => Except.ok (), Except.ok ()⟩
      ⟨false, false, false, false, none⟩ rfl).2.2 rfl rfl rfl).2⟩
